import Mathlib

/-!
Verification of the group-provisioning workflow of a course-management
application.  The embedding below mirrors the web handlers `PatchGroup`,
`GetGroup`-adjacent helpers and `DeleteGroup`, and the gRPC helper
`getCurrentUser`.  External collaborators (the relational store and the
code-hosting provider) are modelled as records of response functions, and
each handler is instrumented to return, next to its result, the ordered
list of provider calls and store writes it issued.
-/

set_option maxHeartbeats 1000000

namespace models

/-- Modelled from the spec: the `models` package is not under src/.  The
kind tag on a local repository record distinguishes individual (user)
repositories from group repositories. -/
inductive RepoType where
  | UserRepo : RepoType
  | GroupRepo : RepoType
deriving DecidableEq

/-- Modelled from the spec: the `models` package is not under src/.  The
approval/role enumeration is ordered; `Teacher` is the privileged
threshold and statuses above `Rejected` count as accepted. -/
def Pending : Nat := 0

/-- Modelled from the spec: see `models.Pending`. -/
def Rejected : Nat := 1

/-- Modelled from the spec: see `models.Pending`. -/
def Student : Nat := 2

/-- Modelled from the spec: see `models.Pending`. -/
def Teacher : Nat := 3

/-- A linked-provider entry of a user (Go: `models.RemoteIdentity`). -/
structure RemoteIdentity where
  Provider : String
  RemoteID : Nat
  AccessToken : String
deriving DecidableEq

/-- A local user record (Go: `models.User`). -/
structure User where
  ID : Nat
  IsAdmin : Option Bool
  RemoteIdentities : List RemoteIdentity
deriving DecidableEq

/-- A student group (Go: `models.Group`). -/
structure Group where
  ID : Nat
  Name : String
  CourseID : Nat
  Status : Nat
  Users : List User
deriving DecidableEq

/-- A course (Go: `models.Course`), with its hosting provider and the
provider-side directory id under which course repositories live. -/
structure Course where
  ID : Nat
  Provider : String
  DirectoryID : Nat
deriving DecidableEq

/-- A local repository record (Go: `models.Repository`).  The Go field
`Type` is rendered `Type_` because `Type` is reserved in Lean. -/
structure Repository where
  DirectoryID : Nat
  RepositoryID : Nat
  HTMLURL : String
  Type_ : RepoType
  UserID : Nat
  GroupID : Nat
deriving DecidableEq

end models

namespace scm

/-- A provider-side directory/organization (Go: `scm.Directory`). -/
structure Directory where
  ID : Nat
  Path : String
deriving DecidableEq

/-- A provider-side repository (Go: `scm.Repository`). -/
structure Repository where
  ID : Nat
  Path : String
  WebURL : String
  Owner : String
deriving DecidableEq

/-- Options of a provider repository-creation call
(Go: `scm.CreateRepositoryOptions`). -/
structure CreateRepositoryOptions where
  Directory : Directory
  Path : String
  Private : Bool
deriving DecidableEq

/-- A provider-side team (Go: `scm.Team`). -/
structure Team where
  ID : Nat
deriving DecidableEq

/-- Options of a provider team-creation call (Go: `scm.CreateTeamOptions`). -/
structure CreateTeamOptions where
  Directory : Directory
  TeamName : String
  Users : List String
deriving DecidableEq

/-- Options of attaching a repository to a team
(Go: `scm.AddTeamRepoOptions`). -/
structure AddTeamRepoOptions where
  TeamID : Nat
  Owner : String
  Repo : String
deriving DecidableEq

end scm

/-- Errors of the local store; `ErrRecordNotFound` models
`gorm.ErrRecordNotFound`, the not-found sentinel the handlers compare
against, and `Other` any other store error. -/
inductive DbErr where
  | ErrRecordNotFound : DbErr
  | Other : String → DbErr
deriving DecidableEq

/-- The local store interface (Go: `database.Database`), restricted to the
operations the embedded handlers use.  Each operation is a fixed response
function: the store's reaction to each call of the run under study. -/
structure Database where
  GetUser : Nat → Except DbErr models.User
  GetGroup : Bool → Nat → Except DbErr models.Group
  GetCourse : Nat → Except DbErr models.Course
  CreateRepository : models.Repository → Except DbErr Unit
  UpdateGroupStatus : models.Group → Except DbErr Unit
  DeleteGroup : Nat → Except DbErr Unit

/-- The hosting-provider client interface (Go: `scm.SCM`), restricted to
the operations `PatchGroup` uses, as fixed response functions. -/
structure SCM where
  GetDirectory : Nat → Except String scm.Directory
  GetRepositories : scm.Directory → Except String (List scm.Repository)
  CreateRepository : scm.CreateRepositoryOptions → Except String scm.Repository
  GetUserNameByID : Nat → Except String String
  CreateTeam : scm.CreateTeamOptions → Except String scm.Team
  AddTeamRepo : scm.AddTeamRepoOptions → Except String Unit

/-- Errors a web handler can return: an `echo.NewHTTPError` with status
code and message, a raw store error (`return err` after a db call), or a
raw provider error (`return err` after an scm call). -/
inductive WebErr where
  | HTTPError : Nat → String → WebErr
  | DBError : DbErr → WebErr
  | SCMError : String → WebErr
deriving DecidableEq

/-- A non-error handler outcome: `NoContent code` models
`c.NoContent(code)`; `Empty` models a bare `return nil` that writes no
response at all. -/
inductive Response where
  | NoContent : Nat → Response
  | Empty : Response
deriving DecidableEq

/-- One observable call issued by the handler: a provider call or a local
store write.  Read-only store lookups before the workflow starts are not
events; the claims quantify over provider calls and store writes. -/
inductive Event where
  | GetDirectory : Nat → Event
  | GetRepositories : scm.Directory → Event
  | CreateRepository : scm.CreateRepositoryOptions → Event
  | GetUserNameByID : Nat → Event
  | CreateTeam : scm.CreateTeamOptions → Event
  | AddTeamRepo : scm.AddTeamRepoOptions → Event
  | DBCreateRepository : models.Repository → Event
  | DBUpdateGroupStatus : models.Group → Event
deriving DecidableEq

/-- The request body bound by `c.Bind` (Go: `web.UpdateGroupRequest`):
the requested new group status. -/
structure UpdateGroupRequest where
  Status : Nat
deriving DecidableEq

/-- The part of the echo request context `PatchGroup` reads: the `gid`
route parameter, the result of `c.Bind`, and the authenticated caller
placed in the context by the session layer (`c.Get "user"`). -/
structure PatchGroupContext where
  gidParam : String
  bindResult : Except WebErr UpdateGroupRequest
  user : models.User

/-- The handler environment: the store, and the provider-session resolver
(Go helper `getSCM(c, provider)`, which exchanges the caller's stored
credential for a live client; modelled as a function of the provider
name since the caller is fixed for the run). -/
structure WebEnv where
  db : Database
  getSCMFor : String → Except WebErr SCM

/-- A base-10 digit's value, `none` for a non-digit character. -/
def digitVal (ch : Char) : Option Nat :=
  if '0' ≤ ch ∧ ch ≤ '9' then some (ch.toNat - '0'.toNat) else none

/-- Decimal accumulation over the characters of the token. -/
def parseUintCore : Nat → List Char → Option Nat
  | acc, [] => some acc
  | acc, ch :: rest =>
    match digitVal ch with
    | some d => parseUintCore (acc * 10 + d) rest
    | none => none

/-- Go's `strconv.ParseUint(s, 10, 64)`: a non-empty digits-only decimal
whose value fits in 64 bits, `none` on any other input. -/
def parseUint64 (s : String) : Option Nat :=
  match s.data with
  | [] => none
  | cs =>
    match parseUintCore 0 cs with
    | some n => if n < 18446744073709551616 then some n else none
    | none => none

/-- Modelled from the spec: the web package's `parseUint` helper is not
under src/; it parses a numeric route parameter and rejects anything else
with a client error. -/
def parseUint (s : String) : Except WebErr Nat :=
  match parseUint64 s with
  | some n => .ok n
  | none => .error (.HTTPError 400 "invalid identifier")

/-- The path-indexed lookup `PatchGroup` builds from the provider's
repository listing (a Go map insert per repository, so a later repository
with the same path overwrites an earlier one). -/
def existingLookup (repos : List scm.Repository) (name : String) :
    Option scm.Repository :=
  repos.foldl (fun acc r => if r.Path = name then some r else acc) none

/-- Modelled from the spec: `getRemoteIDFor` is repository code not under
src/.  For a member Identity, find the linked-provider entry for the
course's provider; fail with NotFound if the member lacks a link. -/
def getRemoteIDFor (user : models.User) (provider : String) :
    Except WebErr models.RemoteIdentity :=
  match user.RemoteIdentities.find? (fun r => r.Provider = provider) with
  | some r => .ok r
  | none => .error (.HTTPError 404 "remote identity not found")

/-- The member-resolution loop of `PatchGroup`: for each group member, its
linked-provider id, then one provider call translating that id into the
provider username; fail fast on the first failure, preserving input
order in the output. -/
def resolveGitUserNames (s : SCM) (provider : String) :
    List models.User → Except WebErr (List String) × List Event
  | [] => (.ok [], [])
  | u :: rest =>
    match getRemoteIDFor u provider with
    | .error e => (.error e, [])
    | .ok remote =>
      match s.GetUserNameByID remote.RemoteID with
      | .error e => (.error (.SCMError e), [.GetUserNameByID remote.RemoteID])
      | .ok userName =>
        let rt := resolveGitUserNames s provider rest
        match rt.1 with
        | .error e => (.error e, .GetUserNameByID remote.RemoteID :: rt.2)
        | .ok names =>
          (.ok (userName :: names), .GetUserNameByID remote.RemoteID :: rt.2)

/-- The local repository record `PatchGroup` writes for the resolved
repository (Go struct literal at the `Add repo to DB` step; note the
source sets the kind tag to `models.UserRepo`). -/
def groupRepoRecord (course : models.Course) (oldgrp : models.Group)
    (repo : scm.Repository) : models.Repository :=
  { DirectoryID := course.DirectoryID
    RepositoryID := repo.ID
    HTMLURL := repo.WebURL
    Type_ := models.RepoType.UserRepo
    UserID := 0
    GroupID := oldgrp.ID }

/-- The argument of the `UpdateGroupStatus` store write: a group value
holding only the id and the requested status (other fields zero). -/
def statusUpdateGroup (oldgrp : models.Group) (ngrp : UpdateGroupRequest) :
    models.Group :=
  { ID := oldgrp.ID, Name := "", CourseID := 0, Status := ngrp.Status,
    Users := [] }

/-- The tail of `PatchGroup` from the `Add repo to DB` step on, once the
repository has been resolved: store the record, update the group status,
resolve member usernames, create the team, attach the repository. -/
def patchGroupAfterRepo (env : WebEnv) (s : SCM) (course : models.Course)
    (oldgrp : models.Group) (ngrp : UpdateGroupRequest)
    (dir : scm.Directory) (repo : scm.Repository) :
    Except WebErr Response × List Event :=
  let dbRepo := groupRepoRecord course oldgrp repo
  match env.db.CreateRepository dbRepo with
  | .error e => (.error (.DBError e), [.DBCreateRepository dbRepo])
  | .ok _ =>
    let statusGrp := statusUpdateGroup oldgrp ngrp
    match env.db.UpdateGroupStatus statusGrp with
    | .error e =>
      (.error (.DBError e),
        [.DBCreateRepository dbRepo, .DBUpdateGroupStatus statusGrp])
    | .ok _ =>
      let rt := resolveGitUserNames s course.Provider oldgrp.Users
      match rt.1 with
      | .error e =>
        (.error e,
          [.DBCreateRepository dbRepo, .DBUpdateGroupStatus statusGrp] ++ rt.2)
      | .ok gitUserNames =>
        let teamOpts : scm.CreateTeamOptions :=
          { Directory := { ID := 0, Path := dir.Path }
            TeamName := oldgrp.Name
            Users := gitUserNames }
        match s.CreateTeam teamOpts with
        | .error e =>
          (.error (.SCMError e),
            [.DBCreateRepository dbRepo, .DBUpdateGroupStatus statusGrp]
              ++ rt.2 ++ [.CreateTeam teamOpts])
        | .ok team =>
          let addOpts : scm.AddTeamRepoOptions :=
            { TeamID := team.ID, Owner := repo.Owner, Repo := repo.Path }
          match s.AddTeamRepo addOpts with
          | .error e =>
            (.error (.SCMError e),
              [.DBCreateRepository dbRepo, .DBUpdateGroupStatus statusGrp]
                ++ rt.2 ++ [.CreateTeam teamOpts, .AddTeamRepo addOpts])
          | .ok _ =>
            (.ok (.NoContent 200),
              [.DBCreateRepository dbRepo, .DBUpdateGroupStatus statusGrp]
                ++ rt.2 ++ [.CreateTeam teamOpts, .AddTeamRepo addOpts])

/-- The `PatchGroup` handler (web package): parse the group id, bind the
requested status, reject a status above `models.Teacher`, reject
non-admin callers, load group and course, resolve a provider session,
resolve-or-create the group repository, record it, update the status,
resolve members, create the team and attach the repository.  Returns the
handler outcome and the ordered list of provider calls and store
writes. -/
def PatchGroup (env : WebEnv) (c : PatchGroupContext) :
    Except WebErr Response × List Event :=
  match parseUint c.gidParam with
  | .error e => (.error e, [])
  | .ok id =>
    match c.bindResult with
    | .error e => (.error e, [])
    | .ok ngrp =>
      if ngrp.Status > models.Teacher then
        (.error (.HTTPError 400 "invalid payload"), [])
      else
        match c.user.IsAdmin with
        | none => (.ok (.NoContent 403), [])
        | some false => (.ok (.NoContent 403), [])
        | some true =>
          match env.db.GetGroup true id with
          | .error .ErrRecordNotFound =>
            (.error (.HTTPError 404 "group not found"), [])
          | .error e => (.error (.DBError e), [])
          | .ok oldgrp =>
            match env.db.GetCourse oldgrp.CourseID with
            | .error .ErrRecordNotFound =>
              (.error (.HTTPError 404 "course not found"), [])
            | .error e => (.error (.DBError e), [])
            | .ok course =>
              match env.getSCMFor course.Provider with
              | .error e => (.error e, [])
              | .ok s =>
                match s.GetDirectory course.DirectoryID with
                | .error e =>
                  (.error (.SCMError e), [.GetDirectory course.DirectoryID])
                | .ok dir =>
                  match s.GetRepositories dir with
                  | .error e =>
                    (.error (.SCMError e),
                      [.GetDirectory course.DirectoryID,
                       .GetRepositories dir])
                  | .ok repos =>
                    match existingLookup repos oldgrp.Name with
                    | some repo =>
                      let rt :=
                        patchGroupAfterRepo env s course oldgrp ngrp dir repo
                      (rt.1,
                        [.GetDirectory course.DirectoryID,
                         .GetRepositories dir] ++ rt.2)
                    | none =>
                      let opts : scm.CreateRepositoryOptions :=
                        { Directory := dir, Path := oldgrp.Name,
                          Private := true }
                      match s.CreateRepository opts with
                      | .error e =>
                        (.error (.SCMError e),
                          [.GetDirectory course.DirectoryID,
                           .GetRepositories dir, .CreateRepository opts])
                      | .ok repo =>
                        let rt :=
                          patchGroupAfterRepo env s course oldgrp ngrp dir
                            repo
                        (rt.1,
                          [.GetDirectory course.DirectoryID,
                           .GetRepositories dir, .CreateRepository opts]
                            ++ rt.2)

/-- The `DeleteGroup` handler (web package): parse the group id, load the
group, forbid deleting a group whose status is above `models.Rejected`,
then delete; a store error at the delete is discarded (`return nil`). -/
def DeleteGroup (db : Database) (gidParam : String) :
    Except WebErr Response :=
  match parseUint gidParam with
  | .error e => .error e
  | .ok gid =>
    match db.GetGroup false gid with
    | .error .ErrRecordNotFound => .error (.HTTPError 404 "group not found")
    | .error e => .error (.DBError e)
    | .ok group =>
      if group.Status > models.Rejected then
        .error (.HTTPError 403 "accepted group cannot be deleted")
      else
        match db.DeleteGroup gid with
        | .error _ => .ok .Empty
        | .ok _ => .ok (.NoContent 200)

/-- gRPC status codes the embedded `grpc_service` helpers use. -/
inductive Code where
  | Aborted : Code
  | Unauthenticated : Code
  | PermissionDenied : Code
  | NotFound : Code
deriving DecidableEq

/-- Errors of `getCurrentUser`: a grpc status error, the raw
`strconv.ParseUint` error returned verbatim, or the raw store error
returned verbatim. -/
inductive GrpcErr where
  | Status : Code → String → GrpcErr
  | ParseError : String → GrpcErr
  | DBError : DbErr → GrpcErr
deriving DecidableEq

/-- The `getCurrentUser` helper (grpc_service package).  Its input is the
`user` metadata of the incoming context: `none` when
`metadata.FromIncomingContext` reports no metadata at all, otherwise the
list of values under the `user` key. -/
def getCurrentUser (db : Database) (meta : Option (List String)) :
    Except GrpcErr models.User :=
  match meta with
  | none => .error (.Status .Aborted "Malformed request")
  | some userValues =>
    if userValues.length = 0 then
      .error (.Status .Unauthenticated "No user metadata")
    else if userValues.length ≠ 1 then
      .error (.Status .PermissionDenied "Invalid user payload")
    else
      let currentUser := userValues.headD ""
      if currentUser = "" then
        .error (.Status .Unauthenticated "Invalid user payload")
      else
        match parseUint64 currentUser with
        | none => .error (.ParseError currentUser)
        | some numID =>
          match db.GetUser numID with
          | .error e => .error (.DBError e)
          | .ok usr => .ok usr

/-- The repository-creation calls issued during a run, in order. -/
def createRepositoryCalls (tr : List Event) :
    List scm.CreateRepositoryOptions :=
  tr.filterMap fun e =>
    match e with
    | .CreateRepository o => some o
    | _ => none

/-- The team-creation calls issued during a run, in order. -/
def createTeamCalls (tr : List Event) : List scm.CreateTeamOptions :=
  tr.filterMap fun e =>
    match e with
    | .CreateTeam o => some o
    | _ => none

/-- The local repository records the run asked the store to insert. -/
def dbRepositoryRecords (tr : List Event) : List models.Repository :=
  tr.filterMap fun e =>
    match e with
    | .DBCreateRepository r => some r
    | _ => none

theorem createRepositoryCalls_append (a b : List Event) :
    createRepositoryCalls (a ++ b) =
      createRepositoryCalls a ++ createRepositoryCalls b :=
  List.filterMap_append a b _

theorem createTeamCalls_append (a b : List Event) :
    createTeamCalls (a ++ b) = createTeamCalls a ++ createTeamCalls b :=
  List.filterMap_append a b _

theorem dbRepositoryRecords_append (a b : List Event) :
    dbRepositoryRecords (a ++ b) =
      dbRepositoryRecords a ++ dbRepositoryRecords b :=
  List.filterMap_append a b _


/-- Every event of the member-resolution loop is a username lookup. -/
theorem resolveGitUserNames_events (s : SCM) (provider : String) :
    ∀ us : List models.User,
      ∀ e ∈ (resolveGitUserNames s provider us).2,
        ∃ n, e = Event.GetUserNameByID n := by
  intro us
  induction us with
  | nil => intro e he; simp [resolveGitUserNames] at he
  | cons u rest ih =>
    intro e he
    rcases h1 : getRemoteIDFor u provider with e1 | remote
    · simp only [resolveGitUserNames, h1] at he
      simp at he
    · rcases h2 : s.GetUserNameByID remote.RemoteID with e2 | nm
      · simp only [resolveGitUserNames, h1, h2] at he
        simp at he
        exact ⟨remote.RemoteID, he⟩
      · rcases h3 : (resolveGitUserNames s provider rest).1 with e3 | names
        · simp only [resolveGitUserNames, h1, h2, h3] at he
          rcases List.mem_cons.mp he with h | h
          · exact ⟨remote.RemoteID, h⟩
          · exact ih e h
        · simp only [resolveGitUserNames, h1, h2, h3] at he
          rcases List.mem_cons.mp he with h | h
          · exact ⟨remote.RemoteID, h⟩
          · exact ih e h

theorem resolveGitUserNames_no_create (s : SCM) (provider : String)
    (us : List models.User) :
    createRepositoryCalls (resolveGitUserNames s provider us).2 = [] := by
  rw [createRepositoryCalls, List.filterMap_eq_nil_iff]
  intro e he
  obtain ⟨n, rfl⟩ := resolveGitUserNames_events s provider us e he
  rfl

theorem resolveGitUserNames_no_team (s : SCM) (provider : String)
    (us : List models.User) :
    createTeamCalls (resolveGitUserNames s provider us).2 = [] := by
  rw [createTeamCalls, List.filterMap_eq_nil_iff]
  intro e he
  obtain ⟨n, rfl⟩ := resolveGitUserNames_events s provider us e he
  rfl

theorem resolveGitUserNames_no_record (s : SCM) (provider : String)
    (us : List models.User) :
    dbRepositoryRecords (resolveGitUserNames s provider us).2 = [] := by
  rw [dbRepositoryRecords, List.filterMap_eq_nil_iff]
  intro e he
  obtain ⟨n, rfl⟩ := resolveGitUserNames_events s provider us e he
  rfl

/-- The tail of the workflow issues no repository-creation call and asks
the store to insert exactly the one record for the resolved repository. -/
theorem patchGroupAfterRepo_trace (env : WebEnv) (s : SCM)
    (course : models.Course) (oldgrp : models.Group)
    (ngrp : UpdateGroupRequest) (dir : scm.Directory)
    (repo : scm.Repository) :
    createRepositoryCalls
        (patchGroupAfterRepo env s course oldgrp ngrp dir repo).2 = [] ∧
      dbRepositoryRecords
        (patchGroupAfterRepo env s course oldgrp ngrp dir repo).2 =
          [groupRepoRecord course oldgrp repo] := by
  rcases h1 : env.db.CreateRepository (groupRepoRecord course oldgrp repo)
    with e1 | u1
  · simp only [patchGroupAfterRepo, h1]
    exact ⟨rfl, rfl⟩
  · rcases h2 : env.db.UpdateGroupStatus (statusUpdateGroup oldgrp ngrp)
      with e2 | u2
    · simp only [patchGroupAfterRepo, h1, h2]
      exact ⟨rfl, rfl⟩
    · rcases h3 : (resolveGitUserNames s course.Provider oldgrp.Users).1
        with e3 | names
      · simp only [patchGroupAfterRepo, h1, h2, h3,
          createRepositoryCalls_append, dbRepositoryRecords_append,
          resolveGitUserNames_no_create, resolveGitUserNames_no_record]
        exact ⟨rfl, rfl⟩
      · rcases h4 : s.CreateTeam
          { Directory := { ID := 0, Path := dir.Path },
            TeamName := oldgrp.Name, Users := names } with e4 | team
        · simp only [patchGroupAfterRepo, h1, h2, h3, h4,
            createRepositoryCalls_append, dbRepositoryRecords_append,
            resolveGitUserNames_no_create, resolveGitUserNames_no_record]
          exact ⟨rfl, rfl⟩
        · rcases h5 : s.AddTeamRepo
            { TeamID := team.ID, Owner := repo.Owner, Repo := repo.Path }
            with e5 | u5
          · simp only [patchGroupAfterRepo, h1, h2, h3, h4, h5,
              createRepositoryCalls_append, dbRepositoryRecords_append,
              resolveGitUserNames_no_create, resolveGitUserNames_no_record]
            exact ⟨rfl, rfl⟩
          · simp only [patchGroupAfterRepo, h1, h2, h3, h4, h5,
              createRepositoryCalls_append, dbRepositoryRecords_append,
              resolveGitUserNames_no_create, resolveGitUserNames_no_record]
            exact ⟨rfl, rfl⟩

/-- If no listed repository has the group's name, the path-indexed lookup
is empty at that name. -/
theorem existingLookup_eq_none (repos : List scm.Repository) (name : String)
    (h : ∀ r ∈ repos, r.Path ≠ name) : existingLookup repos name = none := by
  unfold existingLookup
  induction repos with
  | nil => rfl
  | cons r rest ih =>
    simp only [List.foldl_cons, if_neg (h r (List.mem_cons_self r rest))]
    exact ih fun r hr => h r (List.mem_cons_of_mem _ hr)

/-- Appending one repository to the listing makes the lookup find it when
its path matches, the earlier lookup otherwise (the Go map build lets a
later repository overwrite an earlier one with the same path). -/
theorem existingLookup_append_single (repos : List scm.Repository)
    (r : scm.Repository) (name : String) :
    existingLookup (repos ++ [r]) name =
      if r.Path = name then some r else existingLookup repos name := by
  unfold existingLookup
  rw [List.foldl_append]
  rfl

/-- Reduction of `PatchGroup` when all entry steps succeed and the
listing lacks the group's name, so the repository is created. -/
theorem patchGroup_run_absent (env : WebEnv) (c : PatchGroupContext)
    (id : Nat) (ngrp : UpdateGroupRequest) (oldgrp : models.Group)
    (course : models.Course) (s : SCM) (dir : scm.Directory)
    (repos : List scm.Repository) (repo : scm.Repository)
    (h1 : parseUint c.gidParam = .ok id)
    (h2 : c.bindResult = .ok ngrp)
    (h3 : ¬ ngrp.Status > models.Teacher)
    (h4 : c.user.IsAdmin = some true)
    (h5 : env.db.GetGroup true id = .ok oldgrp)
    (h6 : env.db.GetCourse oldgrp.CourseID = .ok course)
    (h7 : env.getSCMFor course.Provider = .ok s)
    (h8 : s.GetDirectory course.DirectoryID = .ok dir)
    (h9 : s.GetRepositories dir = .ok repos)
    (h10 : existingLookup repos oldgrp.Name = none)
    (h11 : s.CreateRepository
      { Directory := dir, Path := oldgrp.Name, Private := true } = .ok repo) :
    PatchGroup env c =
      ((patchGroupAfterRepo env s course oldgrp ngrp dir repo).1,
        [.GetDirectory course.DirectoryID, .GetRepositories dir,
          .CreateRepository
            { Directory := dir, Path := oldgrp.Name, Private := true }] ++
          (patchGroupAfterRepo env s course oldgrp ngrp dir repo).2) := by
  simp only [PatchGroup, h1, h2, if_neg h3, h4, h5, h6, h7, h8, h9, h10, h11]

/-- Reduction of `PatchGroup` when all entry steps succeed and the
listing already holds a repository with the group's name. -/
theorem patchGroup_run_present (env : WebEnv) (c : PatchGroupContext)
    (id : Nat) (ngrp : UpdateGroupRequest) (oldgrp : models.Group)
    (course : models.Course) (s : SCM) (dir : scm.Directory)
    (repos : List scm.Repository) (repo : scm.Repository)
    (h1 : parseUint c.gidParam = .ok id)
    (h2 : c.bindResult = .ok ngrp)
    (h3 : ¬ ngrp.Status > models.Teacher)
    (h4 : c.user.IsAdmin = some true)
    (h5 : env.db.GetGroup true id = .ok oldgrp)
    (h6 : env.db.GetCourse oldgrp.CourseID = .ok course)
    (h7 : env.getSCMFor course.Provider = .ok s)
    (h8 : s.GetDirectory course.DirectoryID = .ok dir)
    (h9 : s.GetRepositories dir = .ok repos)
    (h10 : existingLookup repos oldgrp.Name = some repo) :
    PatchGroup env c =
      ((patchGroupAfterRepo env s course oldgrp ngrp dir repo).1,
        [.GetDirectory course.DirectoryID, .GetRepositories dir] ++
          (patchGroupAfterRepo env s course oldgrp ngrp dir repo).2) := by
  simp only [PatchGroup, h1, h2, if_neg h3, h4, h5, h6, h7, h8, h9, h10]

/-- The hosting directory of the worked scenario. -/
def exDir : scm.Directory := { ID := 13, Path := "org/course" }

/-- The course of the worked scenario, on provider `P`. -/
def exCourse : models.Course := { ID := 1, Provider := "P", DirectoryID := 13 }

/-- A group member linked to provider `P` with provider id 7. -/
def exMember1 : models.User :=
  { ID := 101, IsAdmin := some false,
    RemoteIdentities := [⟨"P", 7, "tok1"⟩] }

/-- A group member linked to provider `P` with provider id 9. -/
def exMember2 : models.User :=
  { ID := 102, IsAdmin := none,
    RemoteIdentities := [⟨"P", 9, "tok2"⟩] }

/-- The privileged caller of the worked scenario. -/
def exAdmin : models.User :=
  { ID := 1, IsAdmin := some true, RemoteIdentities := [] }

/-- Group `g42` of the worked scenario, pending, two members. -/
def exGroup : models.Group :=
  { ID := 42, Name := "g42", CourseID := 1, Status := 0,
    Users := [exMember1, exMember2] }

/-- The provider-side repository for `g42`. -/
def exRepo : scm.Repository :=
  { ID := 77, Path := "g42", WebURL := "https://p.example/org-course/g42",
    Owner := "org-course" }

/-- A provider whose listing is empty, so `g42` must be created. -/
def exSCM : SCM where
  GetDirectory := fun i => if i = 13 then .ok exDir else .error "no directory"
  GetRepositories := fun _ => .ok []
  CreateRepository := fun o =>
    if o.Path = "g42" then .ok exRepo else .error "cannot create"
  GetUserNameByID := fun n =>
    if n = 7 then .ok "u1-handle"
    else if n = 9 then .ok "u2-handle"
    else .error "no such user"
  CreateTeam := fun _ => .ok { ID := 5 }
  AddTeamRepo := fun _ => .ok ()

/-- A store holding the caller, the group and the course, accepting all
writes. -/
def exDb : Database where
  GetUser := fun i => if i = 1 then .ok exAdmin else .error .ErrRecordNotFound
  GetGroup := fun _ i =>
    if i = 42 then .ok exGroup else .error .ErrRecordNotFound
  GetCourse := fun i =>
    if i = 1 then .ok exCourse else .error .ErrRecordNotFound
  CreateRepository := fun _ => .ok ()
  UpdateGroupStatus := fun _ => .ok ()
  DeleteGroup := fun _ => .ok ()

/-- The environment of the creation scenario. -/
def exEnv : WebEnv :=
  { db := exDb,
    getSCMFor := fun p =>
      if p = "P" then .ok exSCM else .error (.HTTPError 404 "no session") }

/-- The request of the worked scenario: group 42, requested status
`models.Student`, admin caller. -/
def exCtx : PatchGroupContext :=
  { gidParam := "42", bindResult := .ok { Status := 2 }, user := exAdmin }

/-- C1: for a group with no pre-existing remote repository at the group's
name, `PatchGroup` issues exactly one provider repository-creation call,
with options directory, path equal to the group name and private true,
and asks the store for exactly one local repository record carrying the
created repository's id and web URL. -/
theorem patchGroup_creates_repo_once (env : WebEnv) (c : PatchGroupContext)
    (id : Nat) (ngrp : UpdateGroupRequest) (oldgrp : models.Group)
    (course : models.Course) (s : SCM) (dir : scm.Directory)
    (repos : List scm.Repository) (repo : scm.Repository)
    (h1 : parseUint c.gidParam = .ok id)
    (h2 : c.bindResult = .ok ngrp)
    (h3 : ¬ ngrp.Status > models.Teacher)
    (h4 : c.user.IsAdmin = some true)
    (h5 : env.db.GetGroup true id = .ok oldgrp)
    (h6 : env.db.GetCourse oldgrp.CourseID = .ok course)
    (h7 : env.getSCMFor course.Provider = .ok s)
    (h8 : s.GetDirectory course.DirectoryID = .ok dir)
    (h9 : s.GetRepositories dir = .ok repos)
    (h10 : existingLookup repos oldgrp.Name = none)
    (h11 : s.CreateRepository
      { Directory := dir, Path := oldgrp.Name, Private := true } = .ok repo) :
    createRepositoryCalls (PatchGroup env c).2 =
        [{ Directory := dir, Path := oldgrp.Name, Private := true }] ∧
      dbRepositoryRecords (PatchGroup env c).2 =
        [groupRepoRecord course oldgrp repo] ∧
      (groupRepoRecord course oldgrp repo).RepositoryID = repo.ID ∧
      (groupRepoRecord course oldgrp repo).HTMLURL = repo.WebURL := by
  rw [patchGroup_run_absent env c id ngrp oldgrp course s dir repos repo
    h1 h2 h3 h4 h5 h6 h7 h8 h9 h10 h11]
  simp only [createRepositoryCalls_append, dbRepositoryRecords_append,
    (patchGroupAfterRepo_trace env s course oldgrp ngrp dir repo).1,
    (patchGroupAfterRepo_trace env s course oldgrp ngrp dir repo).2]
  exact ⟨rfl, rfl, rfl, rfl⟩

/-- Witness for C1: the worked scenario, evaluated. -/
theorem patchGroup_creates_repo_once_witness :
    createRepositoryCalls (PatchGroup exEnv exCtx).2 =
        [{ Directory := exDir, Path := exGroup.Name, Private := true }] ∧
      dbRepositoryRecords (PatchGroup exEnv exCtx).2 =
        [groupRepoRecord exCourse exGroup exRepo] ∧
      (groupRepoRecord exCourse exGroup exRepo).RepositoryID = exRepo.ID ∧
      (groupRepoRecord exCourse exGroup exRepo).HTMLURL = exRepo.WebURL :=
  patchGroup_creates_repo_once exEnv exCtx 42 { Status := 2 } exGroup
    exCourse exSCM exDir [] exRepo rfl rfl (by decide) rfl rfl rfl rfl rfl
    rfl rfl rfl

/-- C2: when the provider's listing already holds a repository at the
group's name, `PatchGroup` issues no repository-creation call and the
single local record it asks the store to insert carries the existing
repository's id and web URL. -/
theorem patchGroup_reuses_existing_repo (env : WebEnv)
    (c : PatchGroupContext) (id : Nat) (ngrp : UpdateGroupRequest)
    (oldgrp : models.Group) (course : models.Course) (s : SCM)
    (dir : scm.Directory) (repos : List scm.Repository)
    (repo : scm.Repository)
    (h1 : parseUint c.gidParam = .ok id)
    (h2 : c.bindResult = .ok ngrp)
    (h3 : ¬ ngrp.Status > models.Teacher)
    (h4 : c.user.IsAdmin = some true)
    (h5 : env.db.GetGroup true id = .ok oldgrp)
    (h6 : env.db.GetCourse oldgrp.CourseID = .ok course)
    (h7 : env.getSCMFor course.Provider = .ok s)
    (h8 : s.GetDirectory course.DirectoryID = .ok dir)
    (h9 : s.GetRepositories dir = .ok repos)
    (h10 : existingLookup repos oldgrp.Name = some repo) :
    createRepositoryCalls (PatchGroup env c).2 = [] ∧
      dbRepositoryRecords (PatchGroup env c).2 =
        [groupRepoRecord course oldgrp repo] ∧
      (groupRepoRecord course oldgrp repo).RepositoryID = repo.ID ∧
      (groupRepoRecord course oldgrp repo).HTMLURL = repo.WebURL := by
  rw [patchGroup_run_present env c id ngrp oldgrp course s dir repos repo
    h1 h2 h3 h4 h5 h6 h7 h8 h9 h10]
  simp only [createRepositoryCalls_append, dbRepositoryRecords_append,
    (patchGroupAfterRepo_trace env s course oldgrp ngrp dir repo).1,
    (patchGroupAfterRepo_trace env s course oldgrp ngrp dir repo).2]
  exact ⟨rfl, rfl, rfl, rfl⟩

/-- A provider that already lists the `g42` repository and rejects any
creation attempt. -/
def exSCMPresent : SCM :=
  { exSCM with
    GetRepositories := fun _ => .ok [exRepo]
    CreateRepository := fun _ => .error "unexpected create call" }

/-- The environment of the reuse scenario. -/
def exEnvPresent : WebEnv :=
  { db := exDb,
    getSCMFor := fun p =>
      if p = "P" then .ok exSCMPresent
      else .error (.HTTPError 404 "no session") }

/-- Witness for C2: the reuse scenario, evaluated. -/
theorem patchGroup_reuses_existing_repo_witness :
    createRepositoryCalls (PatchGroup exEnvPresent exCtx).2 = [] ∧
      dbRepositoryRecords (PatchGroup exEnvPresent exCtx).2 =
        [groupRepoRecord exCourse exGroup exRepo] ∧
      (groupRepoRecord exCourse exGroup exRepo).RepositoryID = exRepo.ID ∧
      (groupRepoRecord exCourse exGroup exRepo).HTMLURL = exRepo.WebURL :=
  patchGroup_reuses_existing_repo exEnvPresent exCtx 42 { Status := 2 }
    exGroup exCourse exSCMPresent exDir [exRepo] exRepo rfl rfl (by decide)
    rfl rfl rfl rfl rfl rfl rfl

/-- C3: two invocations in sequence.  The first run creates the group's
repository (one creation call); the second run, against a provider whose
listing now also holds the created repository, issues no creation call,
but it does attempt the local record insert again, and when the store
rejects that insert the second run fails with exactly that store error. -/
theorem patchGroup_second_run_fails_on_insert (env1 env2 : WebEnv)
    (c : PatchGroupContext) (id : Nat) (ngrp : UpdateGroupRequest)
    (oldgrp : models.Group) (course : models.Course) (s1 s2 : SCM)
    (dir : scm.Directory) (repos : List scm.Repository)
    (repo : scm.Repository) (err : DbErr)
    (h1 : parseUint c.gidParam = .ok id)
    (h2 : c.bindResult = .ok ngrp)
    (h3 : ¬ ngrp.Status > models.Teacher)
    (h4 : c.user.IsAdmin = some true)
    (h5 : env1.db.GetGroup true id = .ok oldgrp)
    (h6 : env1.db.GetCourse oldgrp.CourseID = .ok course)
    (h7 : env1.getSCMFor course.Provider = .ok s1)
    (h8 : s1.GetDirectory course.DirectoryID = .ok dir)
    (h9 : s1.GetRepositories dir = .ok repos)
    (h10 : existingLookup repos oldgrp.Name = none)
    (h11 : s1.CreateRepository
      { Directory := dir, Path := oldgrp.Name, Private := true } = .ok repo)
    (hpath : repo.Path = oldgrp.Name)
    (g5 : env2.db.GetGroup true id = .ok oldgrp)
    (g6 : env2.db.GetCourse oldgrp.CourseID = .ok course)
    (g7 : env2.getSCMFor course.Provider = .ok s2)
    (g8 : s2.GetDirectory course.DirectoryID = .ok dir)
    (g9 : s2.GetRepositories dir = .ok (repos ++ [repo]))
    (g10 : env2.db.CreateRepository (groupRepoRecord course oldgrp repo) =
      .error err) :
    createRepositoryCalls (PatchGroup env1 c).2 =
        [{ Directory := dir, Path := oldgrp.Name, Private := true }] ∧
      createRepositoryCalls (PatchGroup env2 c).2 = [] ∧
      (PatchGroup env2 c).1 = .error (.DBError err) := by
  have hfound : existingLookup (repos ++ [repo]) oldgrp.Name = some repo := by
    rw [existingLookup_append_single, if_pos hpath]
  have hrun2 := patchGroup_run_present env2 c id ngrp oldgrp course s2 dir
    (repos ++ [repo]) repo h1 h2 h3 h4 g5 g6 g7 g8 g9 hfound
  refine ⟨?_, ?_, ?_⟩
  · rw [patchGroup_run_absent env1 c id ngrp oldgrp course s1 dir repos repo
      h1 h2 h3 h4 h5 h6 h7 h8 h9 h10 h11]
    simp only [createRepositoryCalls_append,
      (patchGroupAfterRepo_trace env1 s1 course oldgrp ngrp dir repo).1]
    rfl
  · rw [hrun2]
    simp only [createRepositoryCalls_append,
      (patchGroupAfterRepo_trace env2 s2 course oldgrp ngrp dir repo).1]
    rfl
  · rw [hrun2]
    simp only [patchGroupAfterRepo, g10]

/-- The store of the second run: the duplicate insert is rejected on the
uniqueness constraint. -/
def exDbSecond : Database :=
  { exDb with
    CreateRepository := fun _ =>
      .error (.Other "UNIQUE constraint failed") }

/-- The provider as the second run sees it: the listing now holds the
repository the first run created. -/
def exSCMSecond : SCM :=
  { exSCM with GetRepositories := fun _ => .ok ([] ++ [exRepo]) }

/-- The environment of the second run. -/
def exEnvSecond : WebEnv :=
  { db := exDbSecond,
    getSCMFor := fun p =>
      if p = "P" then .ok exSCMSecond
      else .error (.HTTPError 404 "no session") }

/-- Witness for C3: the worked scenario run twice, evaluated. -/
theorem patchGroup_second_run_fails_on_insert_witness :
    createRepositoryCalls (PatchGroup exEnv exCtx).2 =
        [{ Directory := exDir, Path := exGroup.Name, Private := true }] ∧
      createRepositoryCalls (PatchGroup exEnvSecond exCtx).2 = [] ∧
      (PatchGroup exEnvSecond exCtx).1 =
        .error (.DBError (.Other "UNIQUE constraint failed")) :=
  patchGroup_second_run_fails_on_insert exEnv exEnvSecond exCtx 42
    { Status := 2 } exGroup exCourse exSCM exSCMSecond exDir [] exRepo
    (.Other "UNIQUE constraint failed") rfl rfl (by decide) rfl rfl rfl rfl
    rfl rfl rfl rfl rfl rfl rfl rfl rfl rfl rfl

/-- C4: on the fully successful worked run, the one local repository
record `PatchGroup` writes carries the provisioned group's id as owning
group id, but its kind tag is `models.RepoType.UserRepo` — the
individual kind, not the group kind the surrounding code (comments, log
lines, zero user id) intends. -/
theorem patchGroup_record_kind_is_userRepo :
    (PatchGroup exEnv exCtx).1 = .ok (.NoContent 200) ∧
      dbRepositoryRecords (PatchGroup exEnv exCtx).2 =
        [groupRepoRecord exCourse exGroup exRepo] ∧
      (groupRepoRecord exCourse exGroup exRepo).GroupID = exGroup.ID ∧
      (groupRepoRecord exCourse exGroup exRepo).UserID = 0 ∧
      (groupRepoRecord exCourse exGroup exRepo).Type_ =
        models.RepoType.UserRepo ∧
      models.RepoType.UserRepo ≠ models.RepoType.GroupRepo :=
  ⟨rfl, rfl, rfl, rfl, rfl, by decide⟩

/-- Projection facts of the status override used for C5. -/
def overrideGroupStatus (env : WebEnv) (n : Nat) : WebEnv :=
  { env with
    db :=
      { env.db with
        GetGroup := fun withUsers i =>
          (env.db.GetGroup withUsers i).map
            (fun g => { g with Status := n }) } }

theorem overrideGroupStatus_GetGroup (env : WebEnv) (n : Nat)
    (withUsers : Bool) (i : Nat) :
    (overrideGroupStatus env n).db.GetGroup withUsers i =
      (env.db.GetGroup withUsers i).map (fun g => { g with Status := n }) :=
  rfl

theorem overrideGroupStatus_GetCourse (env : WebEnv) (n : Nat) :
    (overrideGroupStatus env n).db.GetCourse = env.db.GetCourse := rfl

theorem overrideGroupStatus_getSCMFor (env : WebEnv) (n : Nat) :
    (overrideGroupStatus env n).getSCMFor = env.getSCMFor := rfl

theorem patchGroupAfterRepo_override (env : WebEnv) (n : Nat) (s : SCM)
    (course : models.Course) (oldgrp : models.Group)
    (ngrp : UpdateGroupRequest) (dir : scm.Directory)
    (repo : scm.Repository) :
    patchGroupAfterRepo (overrideGroupStatus env n) s course oldgrp ngrp
        dir repo =
      patchGroupAfterRepo env s course oldgrp ngrp dir repo := rfl

theorem patchGroupAfterRepo_status_irrelevant (env : WebEnv) (s : SCM)
    (course : models.Course) (g : models.Group) (n : Nat)
    (ngrp : UpdateGroupRequest) (dir : scm.Directory)
    (repo : scm.Repository) :
    patchGroupAfterRepo env s course { g with Status := n } ngrp dir repo =
      patchGroupAfterRepo env s course g ngrp dir repo := rfl

/-- C5 (amended): `PatchGroup` never consults the target group's current
approval status — replacing the stored status by any value changes
neither the outcome nor the calls issued; entry is guarded only by the
requested status bound and the caller's admin flag. -/
theorem patchGroup_ignores_current_status (env : WebEnv)
    (c : PatchGroupContext) (n : Nat) :
    PatchGroup (overrideGroupStatus env n) c = PatchGroup env c := by
  rcases hp : parseUint c.gidParam with e | id
  · simp only [PatchGroup, hp]
  · rcases hb : c.bindResult with e | ngrp
    · simp only [PatchGroup, hp, hb]
    · by_cases hs : ngrp.Status > models.Teacher
      · simp only [PatchGroup, hp, hb, if_pos hs]
      · rcases ha : c.user.IsAdmin with _ | b
        · simp only [PatchGroup, hp, hb, if_neg hs, ha]
        · rcases b with _ | _
          · simp only [PatchGroup, hp, hb, if_neg hs, ha]
          · rcases hg : env.db.GetGroup true id with e | g
            · rcases e with _ | msg <;>
                simp only [PatchGroup, hp, hb, if_neg hs, ha,
                  overrideGroupStatus_GetGroup, hg, Except.map]
            · simp only [PatchGroup, hp, hb, if_neg hs, ha,
                overrideGroupStatus_GetGroup, hg, Except.map,
                overrideGroupStatus_GetCourse, overrideGroupStatus_getSCMFor,
                patchGroupAfterRepo_override,
                patchGroupAfterRepo_status_irrelevant]

/-- A group already at the privileged threshold status. -/
def exGroupTeacher : models.Group :=
  { ID := 44, Name := "g44", CourseID := 1, Status := models.Teacher,
    Users := [exMember1] }

/-- The provider-side repository for `g44`, already listed. -/
def exRepoTeacher : scm.Repository :=
  { ID := 78, Path := "g44", WebURL := "https://p.example/org-course/g44",
    Owner := "org-course" }

/-- The store of the threshold scenario. -/
def exDbTeacher : Database :=
  { exDb with
    GetGroup := fun _ i =>
      if i = 44 then .ok exGroupTeacher else .error .ErrRecordNotFound }

/-- The provider of the threshold scenario: `g44` already exists. -/
def exSCMTeacher : SCM :=
  { exSCM with GetRepositories := fun _ => .ok [exRepoTeacher] }

/-- The environment of the threshold scenario. -/
def exEnvTeacher : WebEnv :=
  { db := exDbTeacher,
    getSCMFor := fun p =>
      if p = "P" then .ok exSCMTeacher
      else .error (.HTTPError 404 "no session") }

/-- The request of the threshold scenario. -/
def exCtxTeacher : PatchGroupContext :=
  { gidParam := "44", bindResult := .ok { Status := 2 }, user := exAdmin }

/-- Counterexample to C5 as stated: a group whose current approval status
equals the privileged threshold is not rejected at entry — the whole
workflow runs to success, issuing provider calls and store writes. -/
theorem patchGroup_at_threshold_proceeds :
    exGroupTeacher.Status = models.Teacher ∧
      (PatchGroup exEnvTeacher exCtxTeacher).1 = .ok (.NoContent 200) ∧
      (PatchGroup exEnvTeacher exCtxTeacher).2 ≠ [] :=
  ⟨rfl, rfl, by decide⟩

/-- If every member before some unlinked member resolves, the resolution
loop fails with the NotFound error of the first unlinked member. -/
theorem resolveGitUserNames_missing_link (s : SCM) (provider : String)
    (bad : models.User) (rest : List models.User)
    (hbad : ∀ r ∈ bad.RemoteIdentities, r.Provider ≠ provider) :
    ∀ pre : List models.User,
      (∀ v ∈ pre, ∃ rid nm, getRemoteIDFor v provider = .ok rid ∧
        s.GetUserNameByID rid.RemoteID = .ok nm) →
      (resolveGitUserNames s provider (pre ++ bad :: rest)).1 =
        .error (.HTTPError 404 "remote identity not found") := by
  have hbadlookup : getRemoteIDFor bad provider =
      .error (.HTTPError 404 "remote identity not found") := by
    rcases hf : bad.RemoteIdentities.find? (fun r => r.Provider = provider)
      with _ | r
    · simp [getRemoteIDFor, hf]
    · have hp := List.find?_some hf
      simp only [decide_eq_true_eq] at hp
      exact absurd hp (hbad r (List.mem_of_find?_eq_some hf))
  intro pre
  induction pre with
  | nil =>
    intro _
    simp [resolveGitUserNames, hbadlookup]
  | cons v pre' ih =>
    intro hpre
    obtain ⟨rid, nm, hv1, hv2⟩ := hpre v (List.mem_cons_self v pre')
    have ih' := ih fun u hu => hpre u (List.mem_cons_of_mem _ hu)
    simp only [List.cons_append, resolveGitUserNames, List.append_eq, hv1,
      hv2, ih']

/-- C6: when a group member lacks a linked-provider entry for the
course's provider (and every member before it resolves), `PatchGroup`
fails with NotFound and no team-creation call is ever issued. -/
theorem patchGroup_missing_link_fails_notFound (env : WebEnv)
    (c : PatchGroupContext) (id : Nat) (ngrp : UpdateGroupRequest)
    (oldgrp : models.Group) (course : models.Course) (s : SCM)
    (dir : scm.Directory) (repos : List scm.Repository)
    (repo : scm.Repository) (pre : List models.User) (bad : models.User)
    (rest : List models.User)
    (h1 : parseUint c.gidParam = .ok id)
    (h2 : c.bindResult = .ok ngrp)
    (h3 : ¬ ngrp.Status > models.Teacher)
    (h4 : c.user.IsAdmin = some true)
    (h5 : env.db.GetGroup true id = .ok oldgrp)
    (h6 : env.db.GetCourse oldgrp.CourseID = .ok course)
    (h7 : env.getSCMFor course.Provider = .ok s)
    (h8 : s.GetDirectory course.DirectoryID = .ok dir)
    (h9 : s.GetRepositories dir = .ok repos)
    (h10 : existingLookup repos oldgrp.Name = some repo)
    (hd1 : env.db.CreateRepository (groupRepoRecord course oldgrp repo) =
      .ok ())
    (hd2 : env.db.UpdateGroupStatus (statusUpdateGroup oldgrp ngrp) =
      .ok ())
    (husers : oldgrp.Users = pre ++ bad :: rest)
    (hpre : ∀ v ∈ pre, ∃ rid nm, getRemoteIDFor v course.Provider = .ok rid ∧
      s.GetUserNameByID rid.RemoteID = .ok nm)
    (hbad : ∀ r ∈ bad.RemoteIdentities, r.Provider ≠ course.Provider) :
    (PatchGroup env c).1 =
        .error (.HTTPError 404 "remote identity not found") ∧
      createTeamCalls (PatchGroup env c).2 = [] := by
  have hres : (resolveGitUserNames s course.Provider oldgrp.Users).1 =
      .error (.HTTPError 404 "remote identity not found") := by
    rw [husers]
    exact resolveGitUserNames_missing_link s course.Provider bad rest hbad
      pre hpre
  rw [patchGroup_run_present env c id ngrp oldgrp course s dir repos repo
    h1 h2 h3 h4 h5 h6 h7 h8 h9 h10]
  constructor
  · simp only [patchGroupAfterRepo, hd1, hd2, hres]
  · simp only [patchGroupAfterRepo, hd1, hd2, hres, createTeamCalls_append,
      resolveGitUserNames_no_team]
    rfl

/-- A member with no linked entry for provider `P`. -/
def exMemberUnlinked : models.User :=
  { ID := 103, IsAdmin := none, RemoteIdentities := [⟨"Q", 11, "tq"⟩] }

/-- A group whose second member is unlinked for provider `P`. -/
def exGroupUnlinked : models.Group :=
  { ID := 43, Name := "g43", CourseID := 1, Status := 0,
    Users := [exMember1, exMemberUnlinked] }

/-- The provider-side repository for `g43`, already listed. -/
def exRepoUnlinked : scm.Repository :=
  { ID := 79, Path := "g43", WebURL := "https://p.example/org-course/g43",
    Owner := "org-course" }

/-- The store of the unlinked-member scenario. -/
def exDbUnlinked : Database :=
  { exDb with
    GetGroup := fun _ i =>
      if i = 43 then .ok exGroupUnlinked else .error .ErrRecordNotFound }

/-- The provider of the unlinked-member scenario. -/
def exSCMUnlinked : SCM :=
  { exSCM with GetRepositories := fun _ => .ok [exRepoUnlinked] }

/-- The environment of the unlinked-member scenario. -/
def exEnvUnlinked : WebEnv :=
  { db := exDbUnlinked,
    getSCMFor := fun p =>
      if p = "P" then .ok exSCMUnlinked
      else .error (.HTTPError 404 "no session") }

/-- The request of the unlinked-member scenario. -/
def exCtxUnlinked : PatchGroupContext :=
  { gidParam := "43", bindResult := .ok { Status := 2 }, user := exAdmin }

/-- Witness for C6: the unlinked-member scenario, evaluated. -/
theorem patchGroup_missing_link_fails_notFound_witness :
    (PatchGroup exEnvUnlinked exCtxUnlinked).1 =
        .error (.HTTPError 404 "remote identity not found") ∧
      createTeamCalls (PatchGroup exEnvUnlinked exCtxUnlinked).2 = [] :=
  patchGroup_missing_link_fails_notFound exEnvUnlinked exCtxUnlinked 43
    { Status := 2 } exGroupUnlinked exCourse exSCMUnlinked exDir
    [exRepoUnlinked] exRepoUnlinked [exMember1] exMemberUnlinked [] rfl rfl
    (by decide) rfl rfl rfl rfl rfl rfl rfl rfl rfl rfl
    (by
      intro v hv
      rw [List.mem_singleton] at hv
      subst hv
      exact ⟨⟨"P", 7, "tok1"⟩, "u1-handle", rfl, rfl⟩)
    (by
      intro r hr
      simp only [exMemberUnlinked, List.mem_singleton] at hr
      subst hr
      decide)

/-- C7: a requested status above the privileged threshold is rejected
with the client error before any provider call or store write is made. -/
theorem patchGroup_rejects_status_above_threshold (env : WebEnv)
    (c : PatchGroupContext) (id : Nat) (ngrp : UpdateGroupRequest)
    (h1 : parseUint c.gidParam = .ok id)
    (h2 : c.bindResult = .ok ngrp)
    (h3 : ngrp.Status > models.Teacher) :
    PatchGroup env c = (.error (.HTTPError 400 "invalid payload"), []) := by
  simp only [PatchGroup, h1, h2, if_pos h3]

/-- The request with status 4, above the `models.Teacher` threshold. -/
def exCtxBadStatus : PatchGroupContext :=
  { gidParam := "42", bindResult := .ok { Status := 4 }, user := exAdmin }

/-- Witness for C7: the above-threshold request, evaluated. -/
theorem patchGroup_rejects_status_above_threshold_witness :
    PatchGroup exEnv exCtxBadStatus =
      (.error (.HTTPError 400 "invalid payload"), []) :=
  patchGroup_rejects_status_above_threshold exEnv exCtxBadStatus 42
    { Status := 4 } rfl rfl (by decide)

/-- C9: when the desired path is absent from the listing and the creation
call fails, `PatchGroup` surfaces exactly that creation error, and the
run ends there — no store write, no team call, no fallback to any entry
of the earlier listing. -/
theorem patchGroup_create_error_surfaced (env : WebEnv)
    (c : PatchGroupContext) (id : Nat) (ngrp : UpdateGroupRequest)
    (oldgrp : models.Group) (course : models.Course) (s : SCM)
    (dir : scm.Directory) (repos : List scm.Repository) (err : String)
    (h1 : parseUint c.gidParam = .ok id)
    (h2 : c.bindResult = .ok ngrp)
    (h3 : ¬ ngrp.Status > models.Teacher)
    (h4 : c.user.IsAdmin = some true)
    (h5 : env.db.GetGroup true id = .ok oldgrp)
    (h6 : env.db.GetCourse oldgrp.CourseID = .ok course)
    (h7 : env.getSCMFor course.Provider = .ok s)
    (h8 : s.GetDirectory course.DirectoryID = .ok dir)
    (h9 : s.GetRepositories dir = .ok repos)
    (h10 : existingLookup repos oldgrp.Name = none)
    (h11 : s.CreateRepository
      { Directory := dir, Path := oldgrp.Name, Private := true } =
        .error err) :
    PatchGroup env c =
      (.error (.SCMError err),
        [.GetDirectory course.DirectoryID, .GetRepositories dir,
          .CreateRepository
            { Directory := dir, Path := oldgrp.Name, Private := true }]) := by
  simp only [PatchGroup, h1, h2, if_neg h3, h4, h5, h6, h7, h8, h9, h10, h11]

/-- A provider that lists nothing and rejects the creation call. -/
def exSCMCreateFail : SCM :=
  { exSCM with CreateRepository := fun _ => .error "quota exceeded" }

/-- The environment of the failed-creation scenario. -/
def exEnvCreateFail : WebEnv :=
  { db := exDb,
    getSCMFor := fun p =>
      if p = "P" then .ok exSCMCreateFail
      else .error (.HTTPError 404 "no session") }

/-- Witness for C9: the failed-creation scenario, evaluated. -/
theorem patchGroup_create_error_surfaced_witness :
    PatchGroup exEnvCreateFail exCtx =
      (.error (.SCMError "quota exceeded"),
        [.GetDirectory exCourse.DirectoryID, .GetRepositories exDir,
          .CreateRepository
            { Directory := exDir, Path := exGroup.Name,
              Private := true }]) :=
  patchGroup_create_error_surfaced exEnvCreateFail exCtx 42 { Status := 2 }
    exGroup exCourse exSCMCreateFail exDir [] "quota exceeded" rfl rfl
    (by decide) rfl rfl rfl rfl rfl rfl rfl rfl

/-- C10: for an existing group whose status permits deletion, a store
error at the delete is discarded — `DeleteGroup` returns the bare
no-error, no-response outcome and surfaces no failure. -/
theorem deleteGroup_discards_store_error (db : Database)
    (gidParam : String) (gid : Nat) (group : models.Group) (err : DbErr)
    (h1 : parseUint gidParam = .ok gid)
    (h2 : db.GetGroup false gid = .ok group)
    (h3 : ¬ group.Status > models.Rejected)
    (h4 : db.DeleteGroup gid = .error err) :
    DeleteGroup db gidParam = .ok .Empty := by
  simp only [DeleteGroup, h1, h2, if_neg h3, h4]

/-- A store whose delete fails. -/
def exDbDeleteFail : Database :=
  { exDb with DeleteGroup := fun _ => .error (.Other "disk failure") }

/-- Witness for C10: the failed-delete scenario, evaluated. -/
theorem deleteGroup_discards_store_error_witness :
    DeleteGroup exDbDeleteFail "42" = .ok .Empty :=
  deleteGroup_discards_store_error exDbDeleteFail "42" 42 exGroup
    (.Other "disk failure") rfl rfl (by decide) rfl

/-- The caller token is missing (no metadata, or no values under the
`user` key) or empty (a single empty value), in the claim's words. -/
def callerTokenMissingOrEmpty (meta : Option (List String)) : Prop :=
  meta = none ∨ meta = some [] ∨ meta = some [""]

/-- The C8 claim as stated, formalised over the embedding: the Identity
Resolver fails with Unauthenticated exactly when the caller token is
missing or empty. -/
def identityResolverClaim : Prop :=
  ∀ (db : Database) (meta : Option (List String)),
    (∃ msg, getCurrentUser db meta =
        .error (.Status .Unauthenticated msg)) ↔
      callerTokenMissingOrEmpty meta

/-- Counterexample to C8 as stated: when the request metadata is missing
entirely the caller token is certainly missing, yet `getCurrentUser`
fails with Aborted, not Unauthenticated. -/
theorem identityResolverClaim_false : ¬ identityResolverClaim := by
  intro h
  obtain ⟨msg, hmsg⟩ := (h exDb none).mpr (Or.inl rfl)
  simp [getCurrentUser] at hmsg

/-- C8 (amended), written from the amended claim's words as a reference
function: Aborted when the request metadata is missing entirely;
Unauthenticated when the `user` values are empty or the single value is
the empty string; PermissionDenied when several values are present; the
raw parse error when the single value is not a decimal unsigned 64-bit
number; the store's lookup error when no user matches; the matching user
otherwise, with no writes performed. -/
def getCurrentUserAmendedSpec (db : Database)
    (meta : Option (List String)) : Except GrpcErr models.User :=
  match meta with
  | none => .error (.Status .Aborted "Malformed request")
  | some [] => .error (.Status .Unauthenticated "No user metadata")
  | some [s] =>
    if s = "" then .error (.Status .Unauthenticated "Invalid user payload")
    else
      match parseUint64 s with
      | none => .error (.ParseError s)
      | some numID =>
        match db.GetUser numID with
        | .error e => .error (.DBError e)
        | .ok usr => .ok usr
  | some _ => .error (.Status .PermissionDenied "Invalid user payload")

/-- C8 (amended theorem): `getCurrentUser` implements exactly the amended
error mapping on every input. -/
theorem getCurrentUser_error_mapping (db : Database)
    (meta : Option (List String)) :
    getCurrentUser db meta = getCurrentUserAmendedSpec db meta := by
  match meta with
  | none => rfl
  | some [] => rfl
  | some [s] => simp [getCurrentUser, getCurrentUserAmendedSpec]
  | some (a :: b :: t) => simp [getCurrentUser, getCurrentUserAmendedSpec]
